import Mathlib

/-!
# Shallow embedding of the ovinet session-lifecycle code

This file embeds, in Lean, the parts of the ovinet-2.0 repository that the
session-lifecycle claims are about:

* `core/constants.py` — the `SessionStatus` choices;
* `tenants/models.py` — `ActiveSession` (with its `pause_session`,
  `resume_session`, `terminate_session` methods), `UserSubscription`,
  `PausedSession` (with its `resume` method);
* `networking/mikrotik.py` — `MikrotikSessionManager` with
  `create_session`, `update_session_data`, `terminate_session`,
  `pause_session`, `resume_session`.

Django rows become Lean structures; the database becomes explicit lists of
rows threaded through each operation; `timezone.now()` becomes a logical
clock that advances once per operation; Python exceptions become an error
type, with each `try/except` block embedded as the corresponding
`Except`-valued control flow.  The Mikrotik router is modelled as the set of
its users and simple queues, plus a fault flag for transient device errors
on `set` commands (the `LibRouterosError` case of the source).
-/

namespace Ovinet

/-- Python-level errors that the embedded code can raise.  `attributeError`
models an `AttributeError` (e.g. accessing a missing enum member),
`doesNotExist` models Django's `Model.DoesNotExist`,
`multipleObjectsReturned` Django's `MultipleObjectsReturned`, and
`libRouterosError` the device library's `LibRouterosError`. -/
inductive PyError where
  | attributeError (name : String)
  | doesNotExist
  | multipleObjectsReturned
  | libRouterosError
  deriving DecidableEq, Repr

/-- `core/constants.py`, class `SessionStatus(models.TextChoices)`:
members ACTIVE, PAUSED, EXPIRED, CANCELLED.  There is no TERMINATED
member. -/
inductive SessionStatus where
  | active
  | paused
  | expired
  | cancelled
  deriving DecidableEq, Repr

/-- Attribute lookup `SessionStatus.<name>` on the `TextChoices` class:
returns the member when it exists and `none` (an `AttributeError` at the
Python level) otherwise.  Mirrors exactly the four members declared in
`core/constants.py`. -/
def SessionStatus.fromAttr : String → Option SessionStatus
  | "ACTIVE" => some .active
  | "PAUSED" => some .paused
  | "EXPIRED" => some .expired
  | "CANCELLED" => some .cancelled
  | _ => none

/-- `tenants/models.py`, `UserSubscription` — the fields the lifecycle
operations read or write. -/
structure UserSubscription where
  id : Nat
  current_connections : Nat
  data_used_mb : Int
  deriving DecidableEq, Repr

/-- `tenants/models.py`, `ActiveSession` — the fields the lifecycle
operations read or write.  `subscription` is the nullable foreign key
(subscription id); `end_time` is nullable. -/
structure ActiveSession where
  id : Nat
  subscription : Option Nat
  session_status : SessionStatus
  start_time : Nat
  end_time : Option Nat
  data_used_mb : Int
  deriving DecidableEq, Repr

/-- `ActiveSession.is_paused` property. -/
def ActiveSession.is_paused (s : ActiveSession) : Bool :=
  s.session_status = SessionStatus.paused

/-- `ActiveSession.is_active` property. -/
def ActiveSession.is_active (s : ActiveSession) : Bool :=
  s.session_status = SessionStatus.active

/-- `ActiveSession.pause_session`: flips the status to `paused`, but only
when the current status is `active`. -/
def ActiveSession.pause_session (s : ActiveSession) : ActiveSession :=
  if s.session_status = SessionStatus.active then
    { s with session_status := SessionStatus.paused }
  else s

/-- `ActiveSession.resume_session`: flips the status to `active`, but only
when the current status is `paused`. -/
def ActiveSession.resume_session (s : ActiveSession) : ActiveSession :=
  if s.session_status = SessionStatus.paused then
    { s with session_status := SessionStatus.active }
  else s

/-- `ActiveSession.terminate_session`: the source executes
`self.session_status = SessionStatus.TERMINATED`, an attribute access on
the `SessionStatus` choices class, then sets `end_time = timezone.now()`.
The attribute access is embedded through `SessionStatus.fromAttr`, so the
result is an `AttributeError` whenever the member is absent. -/
def ActiveSession.terminate_session (now : Nat) (s : ActiveSession) :
    Except PyError ActiveSession :=
  match SessionStatus.fromAttr "TERMINATED" with
  | none => .error (.attributeError "TERMINATED")
  | some st => .ok { s with session_status := st, end_time := some now }

/-- `tenants/models.py`, `PausedSession` — one pause-history row.
`rid` is the row's primary key, `session` the session foreign key,
`paused_by` the nullable actor foreign key. -/
structure PausedSession where
  rid : Nat
  session : Nat
  paused_at : Nat
  resumed_at : Option Nat
  pause_reason : String
  pause_description : String
  paused_by : Option Nat
  deriving DecidableEq, Repr

/-- `PausedSession.is_active_pause` property: `resumed_at is None`. -/
def PausedSession.is_active_pause (r : PausedSession) : Bool :=
  r.resumed_at = none

end Ovinet

namespace Ovinet

/-! ## Device model (`networking/mikrotik.py`) -/

/-- One `/user` row on the router, as created by `create_session`. -/
structure RouterUser where
  name : String
  password : String
  group : String
  deriving DecidableEq, Repr

/-- One `/queue/simple` row on the router. -/
structure RouterQueue where
  name : String
  target : String
  max_limit : String
  disabled : Bool
  deriving DecidableEq, Repr

/-- The router's state: its users and simple queues, plus a fault flag
`set_fails` modelling a device that answers `set` commands with a
`LibRouterosError` (the transient device failure of the source's
`except LibRouterosError` branches). -/
structure RouterState where
  users : List RouterUser
  queues : List RouterQueue
  set_fails : Bool
  deriving DecidableEq, Repr

/-- `hay` starts with `needle` (character lists). -/
def charsStart : List Char → List Char → Bool
  | _, [] => true
  | [], _ :: _ => false
  | a :: as, b :: bs => a == b && charsStart as bs

/-- `needle` occurs as a contiguous run inside `hay` (character lists). -/
def charsContain (needle : List Char) : List Char → Bool
  | [] => charsStart [] needle
  | c :: t => charsStart (c :: t) needle || charsContain needle t

/-- Django's `name__contains=needle` on a queue name: case-sensitive
substring containment. -/
def nameContains (hay needle : String) : Bool :=
  charsContain needle.data hay.data

/-! ## Store model -/

/-- The durable store: the rows of the three tenant tables the lifecycle
operations touch.  `next_rid` is the primary-key sequence for
`PausedSession` rows. -/
structure Store where
  subscriptions : List UserSubscription
  sessions : List ActiveSession
  pause_records : List PausedSession
  next_rid : Nat
  deriving DecidableEq, Repr

/-- `ActiveSession.objects.get(id=sid)`: raises `DoesNotExist` on no match
and `MultipleObjectsReturned` on more than one. -/
def getSession (sid : Nat) (store : Store) : Except PyError ActiveSession :=
  match store.sessions.filter (fun s => s.id == sid) with
  | [] => .error .doesNotExist
  | [s] => .ok s
  | _ :: _ :: _ => .error .multipleObjectsReturned

/-- Fetch of a related `UserSubscription` row through its foreign key. -/
def getSubscription (k : Nat) (store : Store) : Except PyError UserSubscription :=
  match store.subscriptions.filter (fun s => s.id == k) with
  | [] => .error .doesNotExist
  | [s] => .ok s
  | _ :: _ :: _ => .error .multipleObjectsReturned

/-- `session.save()`: writes the row back by primary key. -/
def saveSession (s : ActiveSession) (store : Store) : Store :=
  { store with sessions := store.sessions.map (fun t => if t.id == s.id then s else t) }

/-- `subscription.save()`: writes the row back by primary key. -/
def saveSubscription (s : UserSubscription) (store : Store) : Store :=
  { store with subscriptions :=
      store.subscriptions.map (fun t => if t.id == s.id then s else t) }

/-- `pause_record.save()`: writes the row back by primary key. -/
def saveRecord (r : PausedSession) (store : Store) : Store :=
  { store with pause_records :=
      store.pause_records.map (fun t => if t.rid == r.rid then r else t) }

/-- `PausedSession.objects.create(session=… , pause_reason=…,
pause_description=…, paused_by=…)`: inserts a fresh open row with
`paused_at = timezone.now()`. -/
def createRecord (sid now : Nat) (reason desc : String) (actor : Option Nat)
    (store : Store) : Store :=
  { store with
      pause_records := store.pause_records ++
        [{ rid := store.next_rid, session := sid, paused_at := now,
           resumed_at := none, pause_reason := reason,
           pause_description := desc, paused_by := actor }],
      next_rid := store.next_rid + 1 }

/-- `PausedSession.resume` (tenants/models.py): when the record is still
open, sets `resumed_at = timezone.now()`, saves, and calls
`self.session.resume_session()` on the related session row. -/
def PausedSession.resume (now : Nat) (r : PausedSession) (store : Store) : Store :=
  if r.resumed_at = none then
    let st1 := saveRecord { r with resumed_at := some now } store
    { st1 with sessions :=
        st1.sessions.map (fun t => if t.id == r.session then t.resume_session else t) }
  else store

/-- The open pause records of a session:
`PausedSession.objects.filter(session=…, resumed_at__isnull=True)`. -/
def openPauses (sid : Nat) (recs : List PausedSession) : List PausedSession :=
  recs.filter (fun r => r.session == sid && r.is_active_pause)

/-- `.first()` under the model's `Meta.ordering = ['-paused_at']`: the
record with the greatest `paused_at` (first-in-list on ties). -/
def firstByPausedAtDesc : List PausedSession → Option PausedSession
  | [] => none
  | r :: rs =>
    match firstByPausedAtDesc rs with
    | none => some r
    | some m => if r.paused_at < m.paused_at then some m else some r

/-! ## Combined system state -/

/-- Store, router and a logical clock standing for `timezone.now()`. -/
structure SysState where
  store : Store
  router : RouterState
  clock : Nat
  deriving DecidableEq, Repr

/-- Each operation advances the clock once on entry; every
`timezone.now()` inside the operation then reads the new value. -/
def tick (σ : SysState) : SysState := { σ with clock := σ.clock + 1 }

/-- Python falsiness of an optional int (`if not upload_speed_mbps`):
`None` and `0` are falsy. -/
def natFalsy : Option Nat → Bool
  | none => true
  | some n => n == 0

/-- Python falsiness of an optional string (`if not pause_reason`):
`None` and the empty string are falsy. -/
def strFalsy : Option String → Bool
  | none => true
  | some s => s == ""

/-- The deterministic queue name `session-<sessionId>-<username>`. -/
def queueName (session_id : Nat) (username : String) : String :=
  "session-" ++ toString session_id ++ "-" ++ username

/-- The lookup needle `session-<sessionId>` used with `name__contains`. -/
def sessionNeedle (session_id : Nat) : String :=
  "session-" ++ toString session_id

end Ovinet

namespace Ovinet

/-! ## `MikrotikSessionManager` operations (`networking/mikrotik.py`)

Each operation opens a device connection, works, and closes it; the
connection management itself performs no device mutation, so it does not
appear in the state.  `LibRouterosError` and any other exception are caught
by the operation's outer `except` blocks, which log and return `False`;
mutations already performed before the exception persist. -/

namespace MikrotikSessionManager

/-- `create_session`: adds the `/user` credential, then the
`/queue/simple` queue named `session-<id>-<username>` targeting the
username with `max-limit = "<download>M/<upload>M"`, defaulting the rates
to 10 Mbps up / 50 Mbps down when falsy.  The router (RouterOS) rejects an
`add` whose `name` already exists with a `LibRouterosError`; the outer
`except` turns that into a `False` return, keeping whatever was already
applied.  No store row is read or written. -/
def create_session (session_id : Nat) (username password : String)
    (data_limit_mb upload_speed_mbps download_speed_mbps : Option Nat)
    (σ : SysState) : Bool × SysState :=
  let _ := data_limit_mb  -- accepted but unused by the source
  let σ := tick σ
  if σ.router.users.any (fun u => u.name == username) then
    -- duplicate `/user add` name → LibRouterosError → except → False
    (false, σ)
  else
    let router1 := { σ.router with
      users := σ.router.users ++ [⟨username, password, "billing-users"⟩] }
    let upload := if natFalsy upload_speed_mbps then 10 else upload_speed_mbps.getD 10
    let download := if natFalsy download_speed_mbps then 50 else download_speed_mbps.getD 50
    let qname := queueName session_id username
    if router1.queues.any (fun q => q.name == qname) then
      -- duplicate `/queue/simple add` name → LibRouterosError → except → False;
      -- the credential added above stays on the device
      (false, { σ with router := router1 })
    else
      let q : RouterQueue :=
        { name := qname, target := username,
          max_limit := toString download ++ "M/" ++ toString upload ++ "M",
          disabled := false }
      (true, { σ with router := { router1 with queues := router1.queues ++ [q] } })

/-- `update_session_data`: overwrites `session.data_used_mb` with the
reported value (plain assignment in the source), then, when the session
has a subscription link, adds that same value onto
`subscription.data_used_mb`.  Issues no device command (the connection is
opened and closed around pure store work). -/
def update_session_data (session_id : Nat) (username : String)
    (data_used_mb : Int) (σ : SysState) : Bool × SysState :=
  let _ := username  -- accepted but unused by the source
  let σ := tick σ
  match getSession session_id σ.store with
  | .error _ => (false, σ)
  | .ok session =>
    let st1 := saveSession { session with data_used_mb := data_used_mb } σ.store
    match session.subscription with
    | none => (true, { σ with store := st1 })
    | some k =>
      match getSubscription k st1 with
      | .error _ =>
        -- dangling FK: `session.subscription` raises → outer except → False,
        -- with the session row already saved
        (false, { σ with store := st1 })
      | .ok sub =>
        let st2 := saveSubscription { sub with data_used_mb := sub.data_used_mb + data_used_mb } st1
        (true, { σ with store := st2 })

/-- `terminate_session`: removes every `/user` named `username`, removes
every queue whose name *contains* `session-<id>`, then fetches the session
row and calls its `terminate_session` method.  A missing row is only
logged (returns `True`); the method's `AttributeError` falls through to the
outer `except Exception`, returning `False` with the device mutations kept
and the store untouched. -/
def terminate_session (session_id : Nat) (username : String)
    (σ : SysState) : Bool × SysState :=
  let σ := tick σ
  let router1 := { σ.router with
    users := σ.router.users.filter (fun u => !(u.name == username)) }
  let needle := sessionNeedle session_id
  let router2 := { router1 with
    queues := router1.queues.filter (fun q => !(nameContains q.name needle)) }
  let σ2 := { σ with router := router2 }
  match getSession session_id σ2.store with
  | .error .doesNotExist => (true, σ2)   -- logged as a warning, still True
  | .error _ => (false, σ2)              -- outer except Exception
  | .ok session =>
    match session.terminate_session σ2.clock with
    | .error _ => (false, σ2)            -- AttributeError → outer except → False
    | .ok session' => (true, { σ2 with store := saveSession session' σ2.store })

/-- `pause_session`: fetches the session (missing → `False`); an
already-paused session is logged and returns `False`; otherwise disables
every queue whose name contains `session-<id>` (a device `set` failure
aborts with `False` before any store write), flips the session via
`pause_session`, and unconditionally inserts a `PausedSession` row with
reason `user_request` when no reason text was given and `admin_action`
otherwise. -/
def pause_session (session_id : Nat) (username : String)
    (pause_reason : Option String) (user : Option Nat)
    (σ : SysState) : Bool × SysState :=
  let _ := username
  let σ := tick σ
  match getSession session_id σ.store with
  | .error _ => (false, σ)
  | .ok session =>
    if session.is_paused then
      (false, σ)
    else
      let needle := sessionNeedle session_id
      let hits := σ.router.queues.filter (fun q => nameContains q.name needle)
      if σ.router.set_fails && !hits.isEmpty then
        -- first `set disabled=true` raises LibRouterosError → except → False
        (false, σ)
      else
        let disabledQueues := σ.router.queues.map
          (fun q => if nameContains q.name needle then { q with disabled := true } else q)
        let router' := { σ.router with queues := disabledQueues }
        let st1 := saveSession session.pause_session σ.store
        let reason := if strFalsy pause_reason then "user_request" else "admin_action"
        let desc := match pause_reason with
          | none => "Session paused"
          | some s => if s == "" then "Session paused" else s
        let st2 := createRecord session.id σ.clock reason desc user st1
        (true, { σ with store := st2, router := router' })

/-- `resume_session`: fetches the session (missing → `False`); a session
that is not paused is logged and returns `False`; otherwise re-enables
every queue whose name contains `session-<id>` (a device `set` failure
aborts with `False`), flips the session via `resume_session`, and closes
the latest open `PausedSession` row, when one exists, via its `resume`
method. -/
def resume_session (session_id : Nat) (username : String)
    (σ : SysState) : Bool × SysState :=
  let _ := username
  let σ := tick σ
  match getSession session_id σ.store with
  | .error _ => (false, σ)
  | .ok session =>
    if !session.is_paused then
      (false, σ)
    else
      let needle := sessionNeedle session_id
      let hits := σ.router.queues.filter (fun q => nameContains q.name needle)
      if σ.router.set_fails && !hits.isEmpty then
        (false, σ)
      else
        let enabledQueues := σ.router.queues.map
          (fun q => if nameContains q.name needle then { q with disabled := false } else q)
        let router' := { σ.router with queues := enabledQueues }
        let st1 := saveSession session.resume_session σ.store
        match firstByPausedAtDesc (openPauses session.id st1.pause_records) with
        | none => (true, { σ with store := st1, router := router' })
        | some latest_pause =>
          (true, { σ with store := PausedSession.resume σ.clock latest_pause st1,
                          router := router' })

end MikrotikSessionManager

end Ovinet

namespace Ovinet

/-! ## Basic lemmas about the embedded model -/

/-- The `SessionStatus` choices class has no TERMINATED member. -/
theorem fromAttr_TERMINATED_eq_none : SessionStatus.fromAttr "TERMINATED" = none := rfl

/-- Every call of the model method `ActiveSession.terminate_session`
raises `AttributeError("TERMINATED")`. -/
theorem ActiveSession.terminate_session_eq_error (now : Nat) (s : ActiveSession) :
    s.terminate_session now = .error (.attributeError "TERMINATED") := by
  unfold ActiveSession.terminate_session
  rw [fromAttr_TERMINATED_eq_none]

/-- The manager's `terminate_session` never changes the store: the row
update is unreachable because the model method always raises. -/
theorem terminate_store_eq (σ : SysState) (sid : Nat) (u : String) :
    (MikrotikSessionManager.terminate_session sid u σ).2.store = σ.store := by
  unfold MikrotikSessionManager.terminate_session
  simp only [tick]
  cases h : getSession sid σ.store with
  | error e => cases e <;> simp [h]
  | ok s => simp [h, ActiveSession.terminate_session_eq_error]

/-- The manager's `terminate_session` advances the clock by one tick. -/
theorem terminate_clock_eq (σ : SysState) (sid : Nat) (u : String) :
    (MikrotikSessionManager.terminate_session sid u σ).2.clock = σ.clock + 1 := by
  unfold MikrotikSessionManager.terminate_session
  simp only [tick]
  cases h : getSession sid σ.store with
  | error e => cases e <;> simp [h]
  | ok s => simp [h, ActiveSession.terminate_session_eq_error]

/-! ## Concrete fixtures for witnesses and counterexamples -/

def subFix : UserSubscription := { id := 1, current_connections := 0, data_used_mb := 7 }

def sessFix : ActiveSession :=
  { id := 1, subscription := some 1, session_status := .active,
    start_time := 0, end_time := none, data_used_mb := 100 }

def sessFix12 : ActiveSession :=
  { id := 12, subscription := none, session_status := .active,
    start_time := 0, end_time := none, data_used_mb := 0 }

def sessPausedFix : ActiveSession :=
  { id := 2, subscription := none, session_status := .paused,
    start_time := 0, end_time := none, data_used_mb := 0 }

def userFix : RouterUser := { name := "alice", password := "pw", group := "billing-users" }

def userFix12 : RouterUser := { name := "bob", password := "pw", group := "billing-users" }

def queueFix : RouterQueue :=
  { name := "session-1-alice", target := "alice", max_limit := "50M/10M", disabled := false }

def queueFix12 : RouterQueue :=
  { name := "session-12-bob", target := "bob", max_limit := "50M/10M", disabled := false }

/-- One subscription, one active session, empty router. -/
def sysOne : SysState :=
  { store := { subscriptions := [subFix], sessions := [sessFix],
               pause_records := [], next_rid := 0 },
    router := { users := [], queues := [], set_fails := false },
    clock := 0 }

/-- Sessions 1 and 12 both provisioned on the device. -/
def sysPair : SysState :=
  { store := { subscriptions := [subFix], sessions := [sessFix, sessFix12],
               pause_records := [], next_rid := 0 },
    router := { users := [userFix, userFix12], queues := [queueFix, queueFix12],
                set_fails := false },
    clock := 0 }

/-- Session 1 provisioned, device answering `set` commands with errors. -/
def sysFail : SysState :=
  { store := { subscriptions := [subFix], sessions := [sessFix],
               pause_records := [], next_rid := 0 },
    router := { users := [userFix], queues := [queueFix], set_fails := true },
    clock := 0 }

/-- A session already in `paused` status. -/
def sysPaused : SysState :=
  { store := { subscriptions := [], sessions := [sessPausedFix],
               pause_records := [], next_rid := 0 },
    router := { users := [], queues := [], set_fails := false },
    clock := 0 }

end Ovinet

namespace Ovinet

/-! ## Claim C9 — queue naming, target, rate string and defaults -/

/-- C9: every successful `create_session` adds exactly one queue, named
`session-<sessionId>-<username>` (the deterministic `queueName` scheme),
targeting the username, with `max-limit = "<downloadRate>M/<uploadRate>M"`
where the download rate defaults to 50 Mbps and the upload rate to
10 Mbps when the given rates are falsy (unspecified).  The queue is added
enabled. -/
theorem create_session_queue_shape
    (σ : SysState) (sid : Nat) (u p : String) (dl up dn : Option Nat)
    (hu : σ.router.users.any (fun r => r.name == u) = false)
    (hq : σ.router.queues.any (fun q => q.name == queueName sid u) = false) :
    (MikrotikSessionManager.create_session sid u p dl up dn σ).1 = true ∧
    (MikrotikSessionManager.create_session sid u p dl up dn σ).2.router.queues =
      σ.router.queues ++
        [{ name := queueName sid u, target := u,
           max_limit :=
             toString (if natFalsy dn then 50 else dn.getD 50) ++ "M/" ++
             toString (if natFalsy up then 10 else up.getD 10) ++ "M",
           disabled := false }] ∧
    queueName sid u = "session-" ++ toString sid ++ "-" ++ u := by
  have hu2 : ¬ ∃ x ∈ σ.router.users, x.name = u := by
    rintro ⟨x, hx, hname⟩
    have hx2 := List.any_eq_false.mp hu x hx
    simp at hx2
    exact hx2 hname
  have hq2 : ¬ ∃ x ∈ σ.router.queues, x.name = "session-" ++ toString sid ++ "-" ++ u := by
    rintro ⟨x, hx, hname⟩
    have hx2 := List.any_eq_false.mp hq x hx
    simp [queueName] at hx2
    exact hx2 hname
  unfold MikrotikSessionManager.create_session
  simp [tick, queueName, hu2, hq2]

/-- C9 witness: on an empty router, creating session 1 for `alice` with
explicit rates 50 Mbps down / 10 Mbps up succeeds with a queue at
`50M/10M` named `session-1-alice`; the same call with unspecified rates
produces the same default-rated queue. -/
theorem create_session_queue_shape_witness :
    ((sysOne.router.users.any (fun r => r.name == "alice") = false) ∧
     (sysOne.router.queues.any (fun q => q.name == queueName 1 "alice") = false)) ∧
    ((MikrotikSessionManager.create_session 1 "alice" "pw" none (some 10) (some 50) sysOne).1 = true ∧
     (MikrotikSessionManager.create_session 1 "alice" "pw" none (some 10) (some 50) sysOne).2.router.queues =
       [{ name := "session-1-alice", target := "alice", max_limit := "50M/10M", disabled := false }]) ∧
    ((MikrotikSessionManager.create_session 1 "alice" "pw" none none none sysOne).1 = true ∧
     (MikrotikSessionManager.create_session 1 "alice" "pw" none none none sysOne).2.router.queues =
       [{ name := "session-1-alice", target := "alice", max_limit := "50M/10M", disabled := false }]) := by
  refine ⟨⟨by decide, by decide⟩, ?_, ?_⟩
  · have h := create_session_queue_shape sysOne 1 "alice" "pw" none (some 10) (some 50)
      (by decide) (by decide)
    exact ⟨h.1, by rw [h.2.1]; decide⟩
  · have h := create_session_queue_shape sysOne 1 "alice" "pw" none none none
      (by decide) (by decide)
    exact ⟨h.1, by rw [h.2.1]; decide⟩

/-! ## Claim C10 — substring queue lookup causes cross-session effects -/

/-- C10: the device queue lookups of terminate/pause/resume use substring
containment (`name__contains = session-<id>`), so distinct session ids
interfere: with sessions 1 and 12 provisioned (queues `session-1-alice`
and `session-12-bob`), `session-1` is contained in `session-12-bob`;
terminating session 1 removes *both* queues, and pausing session 1
disables both queues. -/
theorem substring_lookup_cross_session :
    (1 : Nat) ≠ 12 ∧
    nameContains (queueName 12 "bob") (sessionNeedle 1) = true ∧
    (MikrotikSessionManager.terminate_session 1 "alice" sysPair).2.router.queues = [] ∧
    (MikrotikSessionManager.pause_session 1 "alice" none none sysPair).2.router.queues.map
      RouterQueue.disabled = [true, true] := by
  refine ⟨by decide, by decide, ?_, ?_⟩ <;> decide

end Ovinet

namespace Ovinet

/-! ## Claim C3 — usage update: overwrite vs. accumulate -/

/-- C3 counterexample: session 1 starts with `data_used_mb = 100`.
`update_session_data` with a reported value of 500 leaves the session
counter at 500, not at the accumulated 600 the claim requires (the
subscription counter, by contrast, is accumulated to 7 + 500). -/
theorem update_usage_overwrite_counterexample :
    (MikrotikSessionManager.update_session_data 1 "alice" 500 sysOne).2.store.sessions.map
      ActiveSession.data_used_mb = [500] ∧
    ¬ ((MikrotikSessionManager.update_session_data 1 "alice" 500 sysOne).2.store.sessions.map
      ActiveSession.data_used_mb = [sessFix.data_used_mb + 500]) ∧
    (MikrotikSessionManager.update_session_data 1 "alice" 500 sysOne).2.store.subscriptions.map
      UserSubscription.data_used_mb = [subFix.data_used_mb + 500] := by
  decide

/-- C3 amended: `update_session_data` *sets* the session's `data_used_mb`
to the reported value (overwrite, not accumulate) and, when the session is
linked to an existing subscription, *adds* that value onto the
subscription's `data_used_mb`; the router is untouched (the whole result
state differs from the input only in the store and the clock). -/
theorem update_session_data_sets_session_adds_subscription
    (σ : SysState) (sid : Nat) (u : String) (d : Int) (s : ActiveSession)
    (hs : getSession sid σ.store = .ok s) :
    (s.subscription = none →
      MikrotikSessionManager.update_session_data sid u d σ =
        (true, { σ with
                 clock := σ.clock + 1
                 store := saveSession { s with data_used_mb := d } σ.store })) ∧
    (∀ k sub, s.subscription = some k →
      getSubscription k (saveSession { s with data_used_mb := d } σ.store) = .ok sub →
      MikrotikSessionManager.update_session_data sid u d σ =
        (true, { σ with
                 clock := σ.clock + 1
                 store := saveSubscription { sub with data_used_mb := sub.data_used_mb + d }
                            (saveSession { s with data_used_mb := d } σ.store) })) := by
  constructor
  · intro hnone
    unfold MikrotikSessionManager.update_session_data
    simp [tick, hs, hnone]
  · intro k sub hk hsub
    rw [hk] at hsub
    unfold MikrotikSessionManager.update_session_data
    simp [tick, hs, hk, hsub]

/-- C3 witness: the amended behavior at session 1 of `sysOne`
(linked to subscription 1): the call returns `True`, the session counter
becomes 500 and the subscription counter 507. -/
theorem update_session_data_witness :
    getSession 1 sysOne.store = .ok sessFix ∧
    sessFix.subscription = some 1 ∧
    MikrotikSessionManager.update_session_data 1 "alice" 500 sysOne =
      (true, { sysOne with
               clock := 1
               store := saveSubscription { subFix with data_used_mb := subFix.data_used_mb + 500 }
                          (saveSession { sessFix with data_used_mb := 500 } sysOne.store) }) := by
  refine ⟨rfl, rfl, ?_⟩
  have h := (update_session_data_sets_session_adds_subscription sysOne 1 "alice" 500 sessFix
    rfl).2 1 subFix rfl rfl
  exact h

/-! ## Claim C4 — create never touches the store -/

/-- C4 counterexample: on `sysOne` (one subscription with
`current_connections = 0`, one session row), device provisioning for a
fresh session id 7 succeeds (`True`), yet the store is completely
unchanged: no Session row is inserted and the subscription's connection
counter stays 0 — contradicting "inserts a Session row … and increments
the subscription's connection counter exactly when device provisioning
succeeds". -/
theorem create_session_no_store_row_counterexample :
    (MikrotikSessionManager.create_session 7 "carol" "pw" none none none sysOne).1 = true ∧
    (MikrotikSessionManager.create_session 7 "carol" "pw" none none none sysOne).2.store
      = sysOne.store ∧
    sysOne.store.sessions.length = 1 ∧
    (MikrotikSessionManager.create_session 7 "carol" "pw" none none none sysOne).2.store.subscriptions.map
      UserSubscription.current_connections = [0] := by
  decide

/-- C4 amended: `create_session` only talks to the device; on *every*
input — device success or device failure — the store is left exactly as it
was: no Session row is created and no connection counter moves.  The
`False` return on device failure is its only failure signal. -/
theorem create_session_store_unchanged
    (σ : SysState) (sid : Nat) (u p : String) (dl up dn : Option Nat) :
    (MikrotikSessionManager.create_session sid u p dl up dn σ).2.store = σ.store ∧
    (MikrotikSessionManager.create_session sid u p dl up dn σ).2.store.subscriptions.map
      UserSubscription.current_connections =
      σ.store.subscriptions.map UserSubscription.current_connections := by
  have h : (MikrotikSessionManager.create_session sid u p dl up dn σ).2.store = σ.store := by
    unfold MikrotikSessionManager.create_session
    simp only [tick]
    split
    · rfl
    · split <;> rfl
  exact ⟨h, by rw [h]⟩

end Ovinet

namespace Ovinet

/-! ## Claim C7 — pause-on-paused / resume-on-active return the failure value -/

/-- C7 counterexample: pausing the already-paused session 2 returns
`False` — the very value every error path of `pause_session` returns, not
a success carrying the current state; likewise resuming the active
session 1 returns `False`; and an actual error (pausing a nonexistent
session 99) returns the indistinguishable `False`. -/
theorem pause_resume_noop_counterexample :
    (MikrotikSessionManager.pause_session 2 "bob" none none sysPaused).1 = false ∧
    (MikrotikSessionManager.pause_session 2 "bob" none none sysPaused).2.store = sysPaused.store ∧
    (MikrotikSessionManager.resume_session 1 "alice" sysOne).1 = false ∧
    (MikrotikSessionManager.resume_session 1 "alice" sysOne).2.store = sysOne.store ∧
    (MikrotikSessionManager.pause_session 99 "x" none none sysPaused).1 = false := by
  decide

/-- C7 amended: pausing an already-paused session and resuming a session
that is not paused are store- and router-level no-ops, but both return
`False` — the same failure value as the error paths — so a caller *cannot*
distinguish the benign no-op from a failure without pre-checking status. -/
theorem pause_resume_noop_returns_false
    (σ : SysState) (sid : Nat) (u : String) (r : Option String) (a : Option Nat)
    (s : ActiveSession) (hs : getSession sid σ.store = .ok s) :
    (s.is_paused = true →
      MikrotikSessionManager.pause_session sid u r a σ = (false, tick σ)) ∧
    (s.is_paused = false →
      MikrotikSessionManager.resume_session sid u σ = (false, tick σ)) := by
  constructor
  · intro hp
    unfold MikrotikSessionManager.pause_session
    simp [tick, hs, hp]
  · intro hp
    unfold MikrotikSessionManager.resume_session
    simp [tick, hs, hp]

/-- C7 witness: the amended behavior at the paused session 2 of
`sysPaused` and the active session 1 of `sysOne`. -/
theorem pause_resume_noop_returns_false_witness :
    (sessPausedFix.is_paused = true ∧
      MikrotikSessionManager.pause_session 2 "bob" none none sysPaused =
        (false, tick sysPaused)) ∧
    (sessFix.is_paused = false ∧
      MikrotikSessionManager.resume_session 1 "alice" sysOne = (false, tick sysOne)) := by
  constructor
  · exact ⟨by decide,
      (pause_resume_noop_returns_false sysPaused 2 "bob" none none sessPausedFix rfl).1
        (by decide)⟩
  · exact ⟨by decide,
      (pause_resume_noop_returns_false sysOne 1 "alice" none none sessFix rfl).2
        (by decide)⟩

/-! ## Claim C8 — retried create: no existence check, device rejects duplicates -/

/-- The state after a first successful provisioning of session 1. -/
def sysCreated : SysState :=
  (MikrotikSessionManager.create_session 1 "alice" "pw" none none none sysOne).2

/-- C8 counterexample: the first `create_session` for session 1 succeeds;
re-running the identical call does *not* perform the adds as existence-
checked no-ops — it fails (`False`, from the device rejecting the
duplicate `add`), leaving the router unchanged. -/
theorem create_retry_counterexample :
    (MikrotikSessionManager.create_session 1 "alice" "pw" none none none sysOne).1 = true ∧
    (MikrotikSessionManager.create_session 1 "alice" "pw" none none none sysCreated).1 = false ∧
    (MikrotikSessionManager.create_session 1 "alice" "pw" none none none sysCreated).2.router
      = sysCreated.router := by
  decide

/-- C8 amended: `create_session` issues its `add` commands with *no*
existence check; whenever the credential name already exists on the
device, the retried call fails outright with the failure value and
changes nothing — it never reaches the queue add, so it also never makes
a second queue. -/
theorem create_session_duplicate_user_fails
    (σ : SysState) (sid : Nat) (u p : String) (dl up dn : Option Nat)
    (h : σ.router.users.any (fun r => r.name == u) = true) :
    MikrotikSessionManager.create_session sid u p dl up dn σ = (false, tick σ) := by
  unfold MikrotikSessionManager.create_session
  simp [tick, h]

/-- C8 witness: the amended behavior on the already-provisioned router of
`sysCreated`. -/
theorem create_session_duplicate_user_fails_witness :
    (sysCreated.router.users.any (fun r => r.name == "alice") = true) ∧
    MikrotikSessionManager.create_session 1 "alice" "pw" none none none sysCreated =
      (false, tick sysCreated) := by
  exact ⟨by decide,
    create_session_duplicate_user_fails sysCreated 1 "alice" "pw" none none none (by decide)⟩

/-! ## Claim C1 — terminate crashes on the missing TERMINATED member -/

/-- C1: for every session that exists in the store (in particular every
active or paused one), the manager's `terminate_session` returns the
failure value and leaves the store completely unchanged: the session's
status and `end_time` are not set, no subscription counter is decremented
and no PauseRecord is closed.  The cause is the model method raising
`AttributeError("TERMINATED")` — `SessionStatus` has no such member. -/
theorem terminate_attribute_error_leaves_store
    (σ : SysState) (sid : Nat) (u : String) (s : ActiveSession)
    (hs : getSession sid σ.store = .ok s) :
    (MikrotikSessionManager.terminate_session sid u σ).1 = false ∧
    (MikrotikSessionManager.terminate_session sid u σ).2.store = σ.store ∧
    s.terminate_session (tick σ).clock = .error (.attributeError "TERMINATED") := by
  refine ⟨?_, terminate_store_eq σ sid u, ActiveSession.terminate_session_eq_error _ s⟩
  unfold MikrotikSessionManager.terminate_session
  simp [tick, hs, ActiveSession.terminate_session_eq_error]

/-- C1 witness: terminating the active session 1 of `sysOne` returns
`False` with the store unchanged. -/
theorem terminate_attribute_error_leaves_store_witness :
    getSession 1 sysOne.store = .ok sessFix ∧
    (MikrotikSessionManager.terminate_session 1 "alice" sysOne).1 = false ∧
    (MikrotikSessionManager.terminate_session 1 "alice" sysOne).2.store = sysOne.store := by
  have h := terminate_attribute_error_leaves_store sysOne 1 "alice" sessFix rfl
  exact ⟨rfl, h.1, h.2.1⟩

/-! ## Claim C6 — repeat terminate: no terminated state is ever reached -/

/-- C6: there is no reachable "already-terminated" record to make a
no-op on: every call of the model method raises
`AttributeError("TERMINATED")` (the choices class lacks the member), the
manager's terminate never changes the store on any input, and in
particular running it twice leaves the store exactly where the first run
left it. -/
theorem terminate_repeat_no_terminated_state
    (σ : SysState) (sid : Nat) (u : String) :
    (∀ (now : Nat) (s : ActiveSession),
      s.terminate_session now = .error (.attributeError "TERMINATED")) ∧
    (MikrotikSessionManager.terminate_session sid u σ).2.store = σ.store ∧
    (MikrotikSessionManager.terminate_session sid u
      (MikrotikSessionManager.terminate_session sid u σ).2).2.store =
      (MikrotikSessionManager.terminate_session sid u σ).2.store := by
  exact ⟨fun now s => ActiveSession.terminate_session_eq_error now s,
    terminate_store_eq σ sid u, terminate_store_eq _ sid u⟩

/-! ## Claim C2 — device failure during pause loses the pause intent -/

/-- C2 counterexample: session 1 is active and has a device queue, and the
device fails `set` commands with a `LibRouterosError`.  The pause call
makes *no* retry, returns `False`, performs no store update — the session
stays `active`, no PauseRecord and no reconciliation flag exist — so the
pause intent is lost, contradicting "the Store is nonetheless updated so
the session ends in status paused". -/
theorem pause_device_error_counterexample :
    sysFail.router.set_fails = true ∧
    (MikrotikSessionManager.pause_session 1 "alice" none none sysFail).1 = false ∧
    (MikrotikSessionManager.pause_session 1 "alice" none none sysFail).2.store = sysFail.store ∧
    (MikrotikSessionManager.pause_session 1 "alice" none none sysFail).2.store.sessions.map
      ActiveSession.session_status = [SessionStatus.active] := by
  decide

/-- C2 amended: when the queue-disable `set` fails with a device error on
a pause of a non-paused session with a matching queue, `pause_session`
aborts immediately: it returns the failure value with store and router
unchanged — no retries, no `paused` status, no PauseRecord, no
reconciliation flag (no such mechanism exists in the code). -/
theorem pause_session_device_error_aborts
    (σ : SysState) (sid : Nat) (u : String) (r : Option String) (a : Option Nat)
    (s : ActiveSession)
    (hs : getSession sid σ.store = .ok s)
    (hnp : s.is_paused = false)
    (hf : σ.router.set_fails = true)
    (hq : (σ.router.queues.filter
      (fun q => nameContains q.name (sessionNeedle sid))).isEmpty = false) :
    MikrotikSessionManager.pause_session sid u r a σ = (false, tick σ) := by
  unfold MikrotikSessionManager.pause_session
  simp [tick, hs, hnp, hf, hq]

/-- C2 witness: the amended behavior at the failing device of `sysFail`. -/
theorem pause_session_device_error_aborts_witness :
    (sessFix.is_paused = false ∧ sysFail.router.set_fails = true) ∧
    MikrotikSessionManager.pause_session 1 "alice" none none sysFail =
      (false, tick sysFail) := by
  exact ⟨⟨by decide, by decide⟩,
    pause_session_device_error_aborts sysFail 1 "alice" none none sessFix rfl
      (by decide) (by decide) (by decide)⟩

end Ovinet

namespace Ovinet

/-! ## Claim C5 — reachability and the pause-record invariant

List-level helper lemmas first, then a characterization of each
operation's effect on the store, then the inductive invariant. -/

/-- A filter returning a singleton pins down membership, the predicate,
and uniqueness among the list's elements. -/
theorem filter_eq_single {α : Type _} (p : α → Bool) (l : List α) (x : α)
    (h : l.filter p = [x]) :
    x ∈ l ∧ p x = true ∧ ∀ y ∈ l, p y = true → y = x := by
  induction l with
  | nil => simp at h
  | cons hd tl ih =>
    by_cases hp : p hd = true
    · rw [List.filter_cons_of_pos hp] at h
      have hhd : hd = x := by injection h
      have htl : tl.filter p = [] := by injection h
      have hnone : ∀ y ∈ tl, ¬ p y = true := List.filter_eq_nil_iff.mp htl
      subst hhd
      refine ⟨List.mem_cons_self _ _, hp, ?_⟩
      intro y hy hpy
      rcases List.mem_cons.mp hy with h1 | h2
      · exact h1
      · exact absurd hpy (hnone y h2)
    · rw [List.filter_cons_of_neg (by simpa using hp)] at h
      obtain ⟨hmem, hpx, huniq⟩ := ih h
      refine ⟨List.mem_cons_of_mem _ hmem, hpx, ?_⟩
      intro y hy hpy
      rcases List.mem_cons.mp hy with h1 | h2
      · subst h1; exact absurd hpy hp
      · exact huniq y h2 hpy

/-- A successful `getSession` returns a member whose id matches and which
is the unique such row. -/
theorem getSession_ok_spec (sid : Nat) (store : Store) (s : ActiveSession)
    (h : getSession sid store = .ok s) :
    s ∈ store.sessions ∧ s.id = sid ∧
      ∀ t ∈ store.sessions, t.id = sid → t = s := by
  unfold getSession at h
  rcases hf : store.sessions.filter (fun t => t.id == sid) with _ | ⟨a, _ | ⟨b, l⟩⟩ <;>
    rw [hf] at h
  · exact absurd h (by simp)
  · have ha : a = s := by injection h
    subst ha
    obtain ⟨hm, hp, hu⟩ := filter_eq_single _ _ _ hf
    exact ⟨hm, by simpa using hp, fun t ht hid => hu t ht (by simpa using hid)⟩
  · exact absurd h (by simp)

/-- In a list pairwise-distinct on a key, the key determines the element. -/
theorem mem_key_unique {α : Type _} (key : α → Nat) (l : List α) (x : α)
    (hpw : l.Pairwise (fun a b => key a ≠ key b)) (hx : x ∈ l) :
    ∀ y ∈ l, key y = key x → y = x := by
  induction l with
  | nil => simp at hx
  | cons hd tl ih =>
    rw [List.pairwise_cons] at hpw
    obtain ⟨hhd, htl⟩ := hpw
    intro y hy hkey
    rcases List.mem_cons.mp hx with hx1 | hx2
    · subst hx1
      rcases List.mem_cons.mp hy with hy1 | hy2
      · exact hy1
      · exact absurd hkey.symm (hhd y hy2)
    · rcases List.mem_cons.mp hy with hy1 | hy2
      · subst hy1
        exact absurd hkey (hhd x hx2)
      · exact ih htl hx2 y hy2 hkey

/-- Filtering commutes with a map that fixes every element the predicate
accepts and preserves the predicate's value everywhere. -/
theorem filter_map_eq_filter {α : Type _} (q : α → Bool) (f : α → α) (l : List α)
    (h : ∀ t ∈ l, q (f t) = q t ∧ (q t = true → f t = t)) :
    (l.map f).filter q = l.filter q := by
  induction l with
  | nil => rfl
  | cons hd tl ih =>
    have hhd := h hd (List.mem_cons_self hd tl)
    have htl : ∀ t ∈ tl, q (f t) = q t ∧ (q t = true → f t = t) :=
      fun t ht => h t (List.mem_cons_of_mem hd ht)
    rw [List.map_cons]
    by_cases hq : q hd = true
    · rw [List.filter_cons_of_pos (by rw [hhd.1]; exact hq),
        List.filter_cons_of_pos hq, hhd.2 hq, ih htl]
    · rw [List.filter_cons_of_neg (by rw [hhd.1]; simpa using hq),
        List.filter_cons_of_neg (by simpa using hq), ih htl]

/-- `openPauses` distributes over append. -/
theorem openPauses_append (sid : Nat) (l1 l2 : List PausedSession) :
    openPauses sid (l1 ++ l2) = openPauses sid l1 ++ openPauses sid l2 := by
  unfold openPauses
  exact List.filter_append _ _

end Ovinet

namespace Ovinet

/-- Closing the unique open record of a session empties its open set. -/
theorem openPauses_after_close (sid : Nat) (P : List PausedSession)
    (r0 r0' : PausedSession)
    (huniq : ∀ t ∈ P, t.rid = r0.rid → t = r0)
    (hclosed : r0'.is_active_pause = false)
    (hall : openPauses sid P = [r0]) :
    openPauses sid (P.map (fun t => if t.rid == r0.rid then r0' else t)) = [] := by
  unfold openPauses at hall ⊢
  rw [List.filter_eq_nil_iff]
  intro t ht
  obtain ⟨t0, ht0, rfl⟩ := List.mem_map.mp ht
  by_cases h : (t0.rid == r0.rid) = true
  · rw [if_pos h]
    simp [hclosed]
  · rw [if_neg h]
    intro hq
    have hmem : t0 ∈ P.filter (fun r => r.session == sid && r.is_active_pause) :=
      List.mem_filter.mpr ⟨ht0, hq⟩
    rw [hall] at hmem
    have ht0r0 : t0 = r0 := by simpa using hmem
    subst ht0r0
    exact h (by simp)

/-- Replacing a record by one with the same session leaves the open set
of *another* session untouched. -/
theorem openPauses_close_other (sid : Nat) (P : List PausedSession)
    (r0 r0' : PausedSession)
    (huniq : ∀ t ∈ P, t.rid = r0.rid → t = r0)
    (hses : r0'.session = r0.session)
    (hne : ¬ r0.session = sid) :
    openPauses sid (P.map (fun t => if t.rid == r0.rid then r0' else t)) =
      openPauses sid P := by
  unfold openPauses
  apply filter_map_eq_filter
  intro t ht
  by_cases h : (t.rid == r0.rid) = true
  · have ht0 : t = r0 := huniq t ht (by simpa using h)
    subst ht0
    rw [if_pos h]
    have h1 : (r0'.session == sid) = false := by
      rw [hses]; simpa using hne
    have h2 : (t.session == sid) = false := by simpa using hne
    constructor
    · simp [h1, h2]
    · intro hq
      rw [h2] at hq
      simp at hq
  · rw [if_neg h]
    exact ⟨rfl, fun _ => rfl⟩

/-- The open set of a singleton insertion. -/
theorem openPauses_single (sid : Nat) (R : PausedSession) :
    openPauses sid [R] =
      if (R.session == sid && R.is_active_pause) = true then [R] else [] := by
  unfold openPauses
  by_cases h : (R.session == sid && R.is_active_pause) = true
  · rw [if_pos h]
    exact List.filter_cons_of_pos h
  · rw [if_neg h]
    exact List.filter_cons_of_neg h

/-- `firstByPausedAtDesc` of a singleton. -/
theorem firstByPausedAtDesc_single (r : PausedSession) :
    firstByPausedAtDesc [r] = some r := by
  unfold firstByPausedAtDesc firstByPausedAtDesc
  rfl

end Ovinet

namespace Ovinet

/-- Effect of `pause_session` on store and clock: either nothing happens
to the store (failure paths), or the session was fetched un-paused and the
store gets the flipped session plus a fresh open PauseRecord. -/
theorem pause_session_store_cases (sid : Nat) (u : String) (r : Option String)
    (a : Option Nat) (σ : SysState) :
    ((MikrotikSessionManager.pause_session sid u r a σ).2.store = σ.store ∧
     (MikrotikSessionManager.pause_session sid u r a σ).2.clock = σ.clock + 1) ∨
    (∃ s reason desc, getSession sid σ.store = .ok s ∧ s.is_paused = false ∧
      (MikrotikSessionManager.pause_session sid u r a σ).2.store =
        createRecord s.id (σ.clock + 1) reason desc a
          (saveSession s.pause_session σ.store) ∧
      (MikrotikSessionManager.pause_session sid u r a σ).2.clock = σ.clock + 1) := by
  unfold MikrotikSessionManager.pause_session
  cases hg : getSession sid σ.store with
  | error e => left; simp [tick, hg]
  | ok s =>
    by_cases hp : s.is_paused = true
    · left; simp [tick, hg, hp]
    · by_cases hf : (σ.router.set_fails && !((σ.router.queues.filter
          (fun q => nameContains q.name (sessionNeedle sid))).isEmpty)) = true
      · left; simp [tick, hg, hp, hf]
      · right
        refine ⟨s, (if strFalsy r then "user_request" else "admin_action"),
          (match r with
           | none => "Session paused"
           | some t => if t == "" then "Session paused" else t),
          rfl, by simpa using hp, ?_, ?_⟩ <;>
          simp [tick, hg, hp, hf]

/-- Effect of `resume_session` on store and clock: either nothing happens
to the store, or the session was fetched paused, it is flipped to active,
and the latest open pause record (when there is one) is closed at the new
clock value. -/
theorem resume_session_store_cases (sid : Nat) (u : String) (σ : SysState) :
    ((MikrotikSessionManager.resume_session sid u σ).2.store = σ.store ∧
     (MikrotikSessionManager.resume_session sid u σ).2.clock = σ.clock + 1) ∨
    (∃ s, getSession sid σ.store = .ok s ∧ s.is_paused = true ∧
      (MikrotikSessionManager.resume_session sid u σ).2.clock = σ.clock + 1 ∧
      ((firstByPausedAtDesc (openPauses s.id σ.store.pause_records) = none ∧
        (MikrotikSessionManager.resume_session sid u σ).2.store =
          saveSession s.resume_session σ.store) ∨
       (∃ rp, firstByPausedAtDesc (openPauses s.id σ.store.pause_records) = some rp ∧
        (MikrotikSessionManager.resume_session sid u σ).2.store =
          PausedSession.resume (σ.clock + 1) rp
            (saveSession s.resume_session σ.store)))) := by
  unfold MikrotikSessionManager.resume_session
  cases hg : getSession sid σ.store with
  | error e => left; simp [tick, hg]
  | ok s =>
    by_cases hp : s.is_paused = true
    · by_cases hf : (σ.router.set_fails && !((σ.router.queues.filter
          (fun q => nameContains q.name (sessionNeedle sid))).isEmpty)) = true
      · left; simp [tick, hg, hp, hf]
      · right
        refine ⟨s, rfl, hp, ?_, ?_⟩
        · cases hfp : firstByPausedAtDesc (openPauses s.id σ.store.pause_records) <;>
            simp [tick, hg, hp, hf, saveSession, hfp]
        · cases hfp : firstByPausedAtDesc (openPauses s.id σ.store.pause_records) with
          | none => left; exact ⟨rfl, by simp [tick, hg, hp, hf, saveSession, hfp]⟩
          | some rp =>
            right
            exact ⟨rp, rfl, by simp [tick, hg, hp, hf, saveSession, hfp]⟩
    · left; simp [tick, hg, hp]

end Ovinet

namespace Ovinet

/-- `pause_session` never changes the row id. -/
theorem ActiveSession.pause_session_id (s : ActiveSession) : s.pause_session.id = s.id := by
  unfold ActiveSession.pause_session; split <;> rfl

/-- `resume_session` never changes the row id. -/
theorem ActiveSession.resume_session_id (s : ActiveSession) : s.resume_session.id = s.id := by
  unfold ActiveSession.resume_session; split <;> rfl

/-- On an active session, `pause_session` flips exactly the status. -/
theorem ActiveSession.pause_session_of_active (s : ActiveSession)
    (h : s.session_status = SessionStatus.active) :
    s.pause_session = { s with session_status := SessionStatus.paused } := by
  unfold ActiveSession.pause_session
  rw [if_pos h]

/-- On a paused session, `resume_session` flips exactly the status. -/
theorem ActiveSession.resume_session_of_paused (s : ActiveSession)
    (h : s.session_status = SessionStatus.paused) :
    s.resume_session = { s with session_status := SessionStatus.active } := by
  unfold ActiveSession.resume_session
  rw [if_pos h]

/-- On a non-paused session, `resume_session` is the identity. -/
theorem ActiveSession.resume_session_of_not_paused (s : ActiveSession)
    (h : ¬ s.session_status = SessionStatus.paused) :
    s.resume_session = s := by
  unfold ActiveSession.resume_session
  rw [if_neg h]

/-- The state a freshly-created store starts in: every session row is
`active` (the model default on creation), no pause history yet, and
session ids are unique. -/
def InitState (σ : SysState) : Prop :=
  (∀ s ∈ σ.store.sessions, s.session_status = SessionStatus.active) ∧
  σ.store.pause_records = [] ∧
  σ.store.sessions.Pairwise (fun a b => a.id ≠ b.id)

/-- The states reachable from `σ0` through the coordinator's pause,
resume and terminate operations (any arguments). -/
inductive Reachable (σ0 : SysState) : SysState → Prop where
  | refl : Reachable σ0 σ0
  | pause {σ : SysState} (sid : Nat) (u : String) (r : Option String) (a : Option Nat) :
      Reachable σ0 σ →
      Reachable σ0 (MikrotikSessionManager.pause_session sid u r a σ).2
  | resume {σ : SysState} (sid : Nat) (u : String) :
      Reachable σ0 σ →
      Reachable σ0 (MikrotikSessionManager.resume_session sid u σ).2
  | terminate {σ : SysState} (sid : Nat) (u : String) :
      Reachable σ0 σ →
      Reachable σ0 (MikrotikSessionManager.terminate_session sid u σ).2

/-- The claim's invariant: per session at most one open PauseRecord, the
session is `paused` exactly when one open record exists, and every closed
record was closed at or after its pause time. -/
def PauseInv (σ : SysState) : Prop :=
  (∀ s ∈ σ.store.sessions,
    (openPauses s.id σ.store.pause_records).length ≤ 1 ∧
    (s.session_status = SessionStatus.paused ↔
      (openPauses s.id σ.store.pause_records).length = 1)) ∧
  (∀ r ∈ σ.store.pause_records, ∀ t, r.resumed_at = some t → r.paused_at ≤ t)

/-- The inductive strengthening of `PauseInv`: additionally, statuses stay
within {active, paused}, session ids and record ids are unique, record ids
stay below the key sequence, and pause times never exceed the clock. -/
def StoreAux (st : Store) (c : Nat) : Prop :=
  (∀ s ∈ st.sessions,
    (openPauses s.id st.pause_records).length ≤ 1 ∧
    (s.session_status = SessionStatus.paused ↔
      (openPauses s.id st.pause_records).length = 1)) ∧
  (∀ r ∈ st.pause_records, ∀ t, r.resumed_at = some t → r.paused_at ≤ t) ∧
  (∀ s ∈ st.sessions,
    s.session_status = SessionStatus.active ∨
    s.session_status = SessionStatus.paused) ∧
  st.sessions.Pairwise (fun a b => a.id ≠ b.id) ∧
  (∀ r ∈ st.pause_records, r.rid < st.next_rid) ∧
  st.pause_records.Pairwise (fun a b => a.rid ≠ b.rid) ∧
  (∀ r ∈ st.pause_records, r.paused_at ≤ c)

/-- `StoreAux` is monotone in the clock. -/
theorem storeAux_mono (st : Store) (c c' : Nat) (h : StoreAux st c) (hc : c ≤ c') :
    StoreAux st c' := by
  obtain ⟨h1, h2, h3, h4, h5, h6, h7⟩ := h
  exact ⟨h1, h2, h3, h4, h5, h6, fun r hr => le_trans (h7 r hr) hc⟩

/-- An initial state satisfies the strengthened invariant. -/
theorem storeAux_of_init (σ : SysState) (h : InitState σ) :
    StoreAux σ.store σ.clock := by
  obtain ⟨hact, hrec, hpw⟩ := h
  refine ⟨?_, ?_, ?_, hpw, ?_, ?_, ?_⟩
  · intro s hs
    rw [hrec]
    constructor
    · simp [openPauses]
    · rw [hact s hs]
      simp [openPauses]
  · rw [hrec]; simp
  · intro s hs
    exact Or.inl (hact s hs)
  · rw [hrec]; simp
  · rw [hrec]; simp
  · rw [hrec]; simp

end Ovinet

namespace Ovinet

/-- The open record `createRecord` inserts (proof-side abbreviation). -/
def newPauseRecord (nid sid now : Nat) (reason desc : String) (a : Option Nat) :
    PausedSession :=
  { rid := nid, session := sid, paused_at := now, resumed_at := none,
    pause_reason := reason, pause_description := desc, paused_by := a }

/-- `createRecord` appends exactly `newPauseRecord` and bumps the key. -/
theorem createRecord_eq (sid now : Nat) (reason desc : String) (a : Option Nat)
    (st : Store) :
    createRecord sid now reason desc a st =
      { st with
        pause_records := st.pause_records ++ [newPauseRecord st.next_rid sid now reason desc a]
        next_rid := st.next_rid + 1 } := rfl

theorem newPauseRecord_session (nid sid now : Nat) (reason desc : String) (a : Option Nat) :
    (newPauseRecord nid sid now reason desc a).session = sid := rfl

theorem newPauseRecord_rid (nid sid now : Nat) (reason desc : String) (a : Option Nat) :
    (newPauseRecord nid sid now reason desc a).rid = nid := rfl

theorem newPauseRecord_paused_at (nid sid now : Nat) (reason desc : String) (a : Option Nat) :
    (newPauseRecord nid sid now reason desc a).paused_at = now := rfl

theorem newPauseRecord_resumed_at (nid sid now : Nat) (reason desc : String) (a : Option Nat) :
    (newPauseRecord nid sid now reason desc a).resumed_at = none := rfl

theorem newPauseRecord_open (nid sid now : Nat) (reason desc : String) (a : Option Nat) :
    (newPauseRecord nid sid now reason desc a).is_active_pause = true := rfl

/-- Preservation of the strengthened invariant by the store effect of a
successful pause: the fetched session is active and unique for its id; the
store gets the flipped session plus one fresh open record. -/
theorem storeAux_pause_core (st : Store) (c : Nat) (s : ActiveSession)
    (reason desc : String) (a : Option Nat)
    (h : StoreAux st c)
    (hmem : s ∈ st.sessions)
    (huniq : ∀ t ∈ st.sessions, t.id = s.id → t = s)
    (hact : s.session_status = SessionStatus.active) :
    StoreAux (createRecord s.id (c + 1) reason desc a
      (saveSession s.pause_session st)) (c + 1) := by
  obtain ⟨hiv, hcl, hstat, hpw, hrid, hrpw, hpc⟩ := h
  have hps : s.pause_session = { s with session_status := SessionStatus.paused } :=
    ActiveSession.pause_session_of_active s hact
  have hgid : ∀ x : ActiveSession,
      (if x.id == s.id then s.pause_session else x).id = x.id := by
    intro x
    by_cases hx : (x.id == s.id) = true
    · rw [if_pos hx, ActiveSession.pause_session_id]
      exact (beq_iff_eq.mp hx).symm
    · rw [if_neg hx]
  have hsess : (createRecord s.id (c + 1) reason desc a
      (saveSession s.pause_session st)).sessions
      = st.sessions.map (fun t => if t.id == s.id then s.pause_session else t) := by
    simp [createRecord, saveSession, ActiveSession.pause_session_id]
  have hrecs : (createRecord s.id (c + 1) reason desc a
      (saveSession s.pause_session st)).pause_records
      = st.pause_records ++ [newPauseRecord st.next_rid s.id (c + 1) reason desc a] := by
    simp [createRecord, saveSession, newPauseRecord]
  have hnr : (createRecord s.id (c + 1) reason desc a
      (saveSession s.pause_session st)).next_rid = st.next_rid + 1 := by
    simp [createRecord, saveSession]
  have hnp : ¬ s.session_status = SessionStatus.paused := by
    rw [hact]; intro hcon; cases hcon
  have hlen0 : (openPauses s.id st.pause_records).length = 0 := by
    have h1 := (hiv s hmem).1
    have h2 : ¬ (openPauses s.id st.pause_records).length = 1 :=
      fun hl => hnp ((hiv s hmem).2.mpr hl)
    omega
  have hempty : openPauses s.id st.pause_records = [] :=
    List.eq_nil_of_length_eq_zero hlen0
  unfold StoreAux
  rw [hsess, hrecs, hnr]
  refine ⟨?_, ?_, ?_, ?_, ?_, ?_, ?_⟩
  · -- per-session open-record bound and the paused-iff-open equivalence
    intro t' ht'
    obtain ⟨t, ht, rfl⟩ := List.mem_map.mp ht'
    by_cases hts : (t.id == s.id) = true
    · have hteq : t = s := huniq t ht (beq_iff_eq.mp hts)
      subst hteq
      rw [if_pos hts, openPauses_append, ActiveSession.pause_session_id, hempty,
        openPauses_single]
      rw [if_pos (by simp [newPauseRecord_session, newPauseRecord_open])]
      refine ⟨by simp, ?_, ?_⟩
      · intro _; simp
      · intro _
        rw [hps]
    · rw [if_neg hts, openPauses_append, openPauses_single]
      have hcond : ((newPauseRecord st.next_rid s.id (c + 1) reason desc a).session
          == t.id) = false := by
        rw [newPauseRecord_session]
        have hne : ¬ t.id = s.id := fun hcon => hts (beq_iff_eq.mpr hcon)
        simp
        exact fun hcon => hne hcon.symm
      rw [if_neg (by rw [Bool.and_eq_true]; intro hcon; rw [hcond] at hcon; simp at hcon),
        List.append_nil]
      exact hiv t ht
  · -- closed records keep resumed-at ≥ paused-at
    intro r hr t hrt
    rcases List.mem_append.mp hr with h1 | h2
    · exact hcl r h1 t hrt
    · have hr2 : r = newPauseRecord st.next_rid s.id (c + 1) reason desc a := by
        simpa using h2
      subst hr2
      rw [newPauseRecord_resumed_at] at hrt
      cases hrt
  · -- statuses stay within {active, paused}
    intro t' ht'
    obtain ⟨t, ht, rfl⟩ := List.mem_map.mp ht'
    by_cases hts : (t.id == s.id) = true
    · rw [if_pos hts]; right; rw [hps]
    · rw [if_neg hts]; exact hstat t ht
  · -- session ids stay pairwise distinct
    rw [List.pairwise_map]
    exact hpw.imp (fun {x y} hxy => by rw [hgid x, hgid y]; exact hxy)
  · -- record ids stay below the key sequence
    intro r hr
    rcases List.mem_append.mp hr with h1 | h2
    · exact Nat.lt_succ_of_lt (hrid r h1)
    · have hr2 : r = newPauseRecord st.next_rid s.id (c + 1) reason desc a := by
        simpa using h2
      subst hr2
      rw [newPauseRecord_rid]
      exact Nat.lt_succ_self _
  · -- record ids stay pairwise distinct
    rw [List.pairwise_append]
    refine ⟨hrpw, by simp, ?_⟩
    intro x hx y hy
    have hyr : y = newPauseRecord st.next_rid s.id (c + 1) reason desc a := by
      simpa using hy
    subst hyr
    rw [newPauseRecord_rid]
    exact Nat.ne_of_lt (hrid x hx)
  · -- pause times stay below the clock
    intro r hr
    rcases List.mem_append.mp hr with h1 | h2
    · exact le_trans (hpc r h1) (Nat.le_succ _)
    · have hr2 : r = newPauseRecord st.next_rid s.id (c + 1) reason desc a := by
        simpa using h2
      subst hr2
      rw [newPauseRecord_paused_at]

end Ovinet

namespace Ovinet

/-- `is_active_pause` spelled as a proposition. -/
theorem is_active_pause_iff (r : PausedSession) :
    r.is_active_pause = true ↔ r.resumed_at = none := by
  unfold PausedSession.is_active_pause
  exact decide_eq_true_iff

/-- Preservation of the strengthened invariant by the store effect of a
successful resume that closes the open record `r0`: the fetched session is
paused and unique for its id, and `r0` is its unique open record. -/
theorem storeAux_resume_core (st : Store) (c : Nat) (s : ActiveSession)
    (r0 : PausedSession)
    (h : StoreAux st c)
    (hmem : s ∈ st.sessions)
    (huniq : ∀ t ∈ st.sessions, t.id = s.id → t = s)
    (hpd : s.session_status = SessionStatus.paused)
    (hopen : openPauses s.id st.pause_records = [r0]) :
    StoreAux (PausedSession.resume (c + 1) r0 (saveSession s.resume_session st))
      (c + 1) := by
  obtain ⟨hiv, hcl, hstat, hpw, hrid, hrpw, hpc⟩ := h
  obtain ⟨hr0mem, hr0q, hr0uniq⟩ := filter_eq_single _ _ _ hopen
  have hr0q2 := Bool.and_eq_true (r0.session == s.id) r0.is_active_pause |>.mp hr0q
  have hr0s : r0.session = s.id := beq_iff_eq.mp hr0q2.1
  have hr0open : r0.resumed_at = none := (is_active_pause_iff r0).mp hr0q2.2
  have huniq_rid : ∀ y ∈ st.pause_records, y.rid = r0.rid → y = r0 :=
    mem_key_unique PausedSession.rid st.pause_records r0 hrpw hr0mem
  have hres : s.resume_session = { s with session_status := SessionStatus.active } :=
    ActiveSession.resume_session_of_paused s hpd
  have hclosed : ({ r0 with resumed_at := some (c + 1) } : PausedSession).is_active_pause = false := by
    simp [PausedSession.is_active_pause]
  -- components of the new store
  have hsess2 : (PausedSession.resume (c + 1) r0 (saveSession s.resume_session st)).sessions
      = (st.sessions.map (fun t => if t.id == s.id then s.resume_session else t)).map
          (fun t => if t.id == r0.session then t.resume_session else t) := by
    unfold PausedSession.resume
    rw [if_pos hr0open]
    simp [saveRecord, saveSession, ActiveSession.resume_session_id]
  have hrecs2 : (PausedSession.resume (c + 1) r0 (saveSession s.resume_session st)).pause_records
      = st.pause_records.map
          (fun t => if t.rid == r0.rid then { r0 with resumed_at := some (c + 1) } else t) := by
    unfold PausedSession.resume
    rw [if_pos hr0open]
    simp [saveRecord, saveSession]
  have hnr2 : (PausedSession.resume (c + 1) r0 (saveSession s.resume_session st)).next_rid
      = st.next_rid := by
    unfold PausedSession.resume
    rw [if_pos hr0open]
    simp [saveRecord, saveSession]
  -- the two session maps compose into a single replacement
  have hcomp : (st.sessions.map (fun t => if t.id == s.id then s.resume_session else t)).map
        (fun t => if t.id == r0.session then t.resume_session else t)
      = st.sessions.map
          (fun t => if t.id == s.id then { s with session_status := SessionStatus.active } else t) := by
    rw [List.map_map]
    apply List.map_congr_left
    intro t ht
    by_cases hts : (t.id == s.id) = true
    · show (fun t => if t.id == r0.session then t.resume_session else t)
        (if t.id == s.id then s.resume_session else t) = _
      rw [if_pos hts, hres]
      have hc : (({ s with session_status := SessionStatus.active } : ActiveSession).id
          == r0.session) = true := by
        rw [hr0s]; simp
      simp only [hc, if_true, if_pos hts]
      rw [ActiveSession.resume_session_of_not_paused]
      intro hcon
      cases hcon
    · show (fun t => if t.id == r0.session then t.resume_session else t)
        (if t.id == s.id then s.resume_session else t) = _
      rw [if_neg hts]
      have hc : (t.id == r0.session) = false := by
        rw [hr0s]
        simpa using hts
      simp only [hc, Bool.false_eq_true, if_false, if_neg hts]
  -- pointwise facts about the record replacement
  have hfr_rid : ∀ rec : PausedSession,
      (if rec.rid == r0.rid then { r0 with resumed_at := some (c + 1) } else rec).rid
        = rec.rid := by
    intro rec
    by_cases hx : (rec.rid == r0.rid) = true
    · rw [if_pos hx]
      exact (beq_iff_eq.mp hx).symm
    · rw [if_neg hx]
  have hfr_pa : ∀ rec ∈ st.pause_records,
      (if rec.rid == r0.rid then { r0 with resumed_at := some (c + 1) } else rec).paused_at
        = rec.paused_at := by
    intro rec hrec
    by_cases hx : (rec.rid == r0.rid) = true
    · rw [if_pos hx]
      have : rec = r0 := huniq_rid rec hrec (beq_iff_eq.mp hx)
      rw [this]
    · rw [if_neg hx]
  unfold StoreAux
  rw [hsess2, hrecs2, hnr2, hcomp]
  refine ⟨?_, ?_, ?_, ?_, ?_, ?_, ?_⟩
  · -- per-session open-record bound and the paused-iff-open equivalence
    intro t' ht'
    obtain ⟨t, ht, rfl⟩ := List.mem_map.mp ht'
    by_cases hts : (t.id == s.id) = true
    · have hteq : t = s := huniq t ht (beq_iff_eq.mp hts)
      subst hteq
      rw [if_pos hts]
      have hempty := openPauses_after_close t.id st.pause_records r0
        { r0 with resumed_at := some (c + 1) } huniq_rid hclosed hopen
      rw [hempty]
      refine ⟨by simp, ?_, ?_⟩
      · intro hcon
        cases hcon
      · intro hcon
        simp at hcon
    · rw [if_neg hts]
      have hkeep := openPauses_close_other t.id st.pause_records r0
        { r0 with resumed_at := some (c + 1) } huniq_rid rfl
        (by rw [hr0s]; intro hcon; exact hts (beq_iff_eq.mpr hcon.symm))
      rw [hkeep]
      exact hiv t ht
  · -- closed records keep resumed-at ≥ paused-at
    intro r hr t hrt
    obtain ⟨rec, hrec, rfl⟩ := List.mem_map.mp hr
    by_cases hx : (rec.rid == r0.rid) = true
    · rw [if_pos hx] at hrt ⊢
      have hreq : rec = r0 := huniq_rid rec hrec (beq_iff_eq.mp hx)
      have hpa : ({ r0 with resumed_at := some (c + 1) } : PausedSession).paused_at
          = r0.paused_at := rfl
      rw [hpa]
      have hsome : ({ r0 with resumed_at := some (c + 1) } : PausedSession).resumed_at
          = some (c + 1) := rfl
      rw [hsome] at hrt
      cases hrt
      exact le_trans (hpc r0 hr0mem) (Nat.le_succ _)
    · rw [if_neg hx] at hrt ⊢
      exact hcl rec hrec t hrt
  · -- statuses stay within {active, paused}
    intro t' ht'
    obtain ⟨t, ht, rfl⟩ := List.mem_map.mp ht'
    by_cases hts : (t.id == s.id) = true
    · rw [if_pos hts]
      left
      rfl
    · rw [if_neg hts]
      exact hstat t ht
  · -- session ids stay pairwise distinct
    rw [List.pairwise_map]
    refine hpw.imp ?_
    intro x y hxy
    have hx : (if x.id == s.id then { s with session_status := SessionStatus.active } else x).id
        = x.id := by
      by_cases hb : (x.id == s.id) = true
      · rw [if_pos hb]
        exact (beq_iff_eq.mp hb).symm
      · rw [if_neg hb]
    have hy : (if y.id == s.id then { s with session_status := SessionStatus.active } else y).id
        = y.id := by
      by_cases hb : (y.id == s.id) = true
      · rw [if_pos hb]
        exact (beq_iff_eq.mp hb).symm
      · rw [if_neg hb]
    rw [hx, hy]
    exact hxy
  · -- record ids stay below the key sequence
    intro r hr
    obtain ⟨rec, hrec, rfl⟩ := List.mem_map.mp hr
    rw [hfr_rid rec]
    exact hrid rec hrec
  · -- record ids stay pairwise distinct
    rw [List.pairwise_map]
    refine hrpw.imp ?_
    intro x y hxy
    rw [hfr_rid x, hfr_rid y]
    exact hxy
  · -- pause times stay below the clock
    intro r hr
    obtain ⟨rec, hrec, rfl⟩ := List.mem_map.mp hr
    rw [hfr_pa rec hrec]
    exact le_trans (hpc rec hrec) (Nat.le_succ _)

end Ovinet

namespace Ovinet

/-- One `pause_session` call preserves the strengthened invariant. -/
theorem storeAux_pause_step (σ : SysState) (sid : Nat) (u : String)
    (r : Option String) (a : Option Nat) (h : StoreAux σ.store σ.clock) :
    StoreAux (MikrotikSessionManager.pause_session sid u r a σ).2.store
             (MikrotikSessionManager.pause_session sid u r a σ).2.clock := by
  rcases pause_session_store_cases sid u r a σ with
    ⟨hst, hck⟩ | ⟨s, reason, desc, hg, hnp, hst, hck⟩
  · rw [hst, hck]
    exact storeAux_mono _ _ _ h (Nat.le_succ _)
  · obtain ⟨hmem, hid, huniq⟩ := getSession_ok_spec sid σ.store s hg
    subst hid
    have hact : s.session_status = SessionStatus.active := by
      rcases h.2.2.1 s hmem with h1 | h2
      · exact h1
      · exfalso
        have hpt : s.is_paused = true := by
          unfold ActiveSession.is_paused
          rw [h2]
          simp
        rw [hpt] at hnp
        cases hnp
    rw [hst, hck]
    exact storeAux_pause_core σ.store σ.clock s reason desc a h hmem huniq hact

/-- One `resume_session` call preserves the strengthened invariant. -/
theorem storeAux_resume_step (σ : SysState) (sid : Nat) (u : String)
    (h : StoreAux σ.store σ.clock) :
    StoreAux (MikrotikSessionManager.resume_session sid u σ).2.store
             (MikrotikSessionManager.resume_session sid u σ).2.clock := by
  rcases resume_session_store_cases sid u σ with
    ⟨hst, hck⟩ | ⟨s, hg, hp, hck, hrest⟩
  · rw [hst, hck]
    exact storeAux_mono _ _ _ h (Nat.le_succ _)
  · obtain ⟨hmem, hid, huniq⟩ := getSession_ok_spec sid σ.store s hg
    subst hid
    have hpd : s.session_status = SessionStatus.paused := by
      unfold ActiveSession.is_paused at hp
      exact of_decide_eq_true hp
    have hlen1 : (openPauses s.id σ.store.pause_records).length = 1 :=
      (h.1 s hmem).2.mp hpd
    obtain ⟨r0, hr0⟩ := List.length_eq_one.mp hlen1
    rcases hrest with ⟨hfp, hst⟩ | ⟨rp, hfp, hst⟩
    · rw [hr0, firstByPausedAtDesc_single] at hfp
      cases hfp
    · rw [hr0, firstByPausedAtDesc_single] at hfp
      have hrp : r0 = rp := by injection hfp
      subst hrp
      rw [hst, hck]
      exact storeAux_resume_core σ.store σ.clock s r0 h hmem huniq hpd hr0

/-- One `terminate_session` call preserves the strengthened invariant
(the store never changes; only the clock advances). -/
theorem storeAux_terminate_step (σ : SysState) (sid : Nat) (u : String)
    (h : StoreAux σ.store σ.clock) :
    StoreAux (MikrotikSessionManager.terminate_session sid u σ).2.store
             (MikrotikSessionManager.terminate_session sid u σ).2.clock := by
  rw [terminate_store_eq, terminate_clock_eq]
  exact storeAux_mono _ _ _ h (Nat.le_succ _)

/-- The strengthened invariant holds in every reachable state. -/
theorem storeAux_reachable (σ0 σ : SysState) (h0 : StoreAux σ0.store σ0.clock)
    (hr : Reachable σ0 σ) : StoreAux σ.store σ.clock := by
  induction hr with
  | refl => exact h0
  | pause sid u r a _ ih => exact storeAux_pause_step _ sid u r a ih
  | resume sid u _ ih => exact storeAux_resume_step _ sid u ih
  | terminate sid u _ ih => exact storeAux_terminate_step _ sid u ih

/-- C5: in every state reachable from a fresh store (all sessions active,
no pause history, unique ids) through the pause/resume/terminate
operations, each session has at most one open PauseRecord, it is `paused`
exactly when such an open record exists, and every closed record has
resumed-at ≥ paused-at (resume closes the open record at the
then-current clock, which is at least the pause time). -/
theorem pause_record_invariant (σ0 σ : SysState) (h0 : InitState σ0)
    (hr : Reachable σ0 σ) : PauseInv σ := by
  have h := storeAux_reachable σ0 σ (storeAux_of_init σ0 h0) hr
  exact ⟨h.1, h.2.1⟩

/-- C5 witness: from the concrete initial state `sysPair`, the state after
pausing session 1 satisfies the invariant. -/
theorem pause_record_invariant_witness :
    InitState sysPair ∧
    PauseInv (MikrotikSessionManager.pause_session 1 "alice" none none sysPair).2 := by
  have h0 : InitState sysPair := by
    refine ⟨?_, rfl, ?_⟩ <;> decide
  exact ⟨h0, pause_record_invariant sysPair _ h0
    (Reachable.pause 1 "alice" none none Reachable.refl)⟩

end Ovinet
